import Mathlib

/-!
# Verification of the files-manager core against its specification

Shallow embedding of the file/folder registry core: the request-body model,
the Tree Validator (`helpers/validateCreateNewFileData.js` together with
`utils/validation.js`), the Node Repository operations (pagination, visibility
mutation), the payload-read handler (`FilesController.getFile`), the session
teardown endpoint (`middleware/auth.js` + `AuthController.getDisconnect`) and
the password hasher (`utils/hashUtils.js`, SHA-1 per FIPS 180).

JavaScript request bodies are duck typed; the values that can appear in a JSON
body field are modelled by `JsVal` (`undefined` stands for an absent field, which
is what destructuring defaults react to).  MongoDB is modelled as a list of
documents in insertion order; Redis as an association list of key/value pairs
where an expired key is simply absent.
-/

/-- A JSON-ish JavaScript value as it can appear in a request-body field.
`undefined` models an absent field (destructuring defaults fire only on it). -/
inductive JsVal where
  | str (s : String)
  | bool (b : Bool)
  | num (n : Int)
  | null
  | undefined
deriving DecidableEq, Repr

namespace JsVal

/-- JavaScript truthiness of a value (`!v` in the source is `!v.truthy`). -/
def truthy : JsVal → Bool
  | .str s => !s.isEmpty
  | .bool b => b
  | .num n => n != 0
  | .null => false
  | .undefined => false

/-- Model of `typeof v === 'string'`. -/
def isString : JsVal → Bool
  | .str _ => true
  | _ => false

/-- Model of `typeof v === 'boolean'`. -/
def isBool : JsVal → Bool
  | .bool _ => true
  | _ => false

/-- JavaScript `String(v)` / `v.toString()` for the values modelled here. -/
def jsToString : JsVal → String
  | .str s => s
  | .bool b => if b then "true" else "false"
  | .num n => toString n
  | .null => "null"
  | .undefined => "undefined"

end JsVal

/-- A create-node request body.  The five recognized attributes are kept as
explicit (possibly `undefined`) fields; `extraKeys` lists every key of the JSON
object outside the allowed set, in object key order. -/
structure Body where
  name : JsVal := .undefined
  typ : JsVal := .undefined      -- the `type` attribute (`type` is a Lean keyword)
  data : JsVal := .undefined
  parentId : JsVal := .undefined
  isPublic : JsVal := .undefined
  extraKeys : List String := []
deriving DecidableEq, Repr

/-- A document of the `files` collection.  `id` is the ObjectId hex string;
`parentId` is either the root sentinel `"0"` or a parent ObjectId hex string;
`localPath` is present exactly on file/image documents. -/
structure FileDoc where
  id : String
  userId : String
  name : String
  typ : String               -- the `type` field of the document
  isPublic : Bool
  parentId : String
  localPath : Option String
deriving DecidableEq, Repr

/-! ## Configuration constants (`config` module, unnamed part_013) -/

/-- Constant `ROOT_FOLDER_ID = '0'`. -/
def ROOT_FOLDER_ID : String := "0"

/-- Constant `MAX_FILE_SIZE = 2 * 1024 * 1024 * 1024` (2 GiB in bytes). -/
def MAX_FILE_SIZE : Nat := 2 * 1024 * 1024 * 1024

/-- Constant `FILE_TYPES = { FOLDER: 'folder', FILE: 'file', IMAGE: 'image' }`. -/
def FILE_TYPES_FOLDER : String := "folder"

/-- Model of `isValidFileType = (type) => Object.values(FILE_TYPES).includes(type)`. -/
def isValidFileType (t : String) : Bool :=
  t == "folder" || t == "file" || t == "image"

/-! ## ObjectId syntax

The mongodb 3.x `ObjectId(value)` constructor accepts a 12-character string
(raw bytes) or a 24-character hex string and throws on any other string; for
a boolean it throws; for `null`/numbers it generates a fresh id (those cases
are unreachable below: `null` is caught by the truthiness guard and no claim
exercises a numeric parentId, which would resolve to a freshly generated id
that matches no stored document). -/

/-- Hex-digit test used by the ObjectId syntax check. -/
def isHexDigit (c : Char) : Bool :=
  c.isDigit || ('a' ≤ c && c ≤ 'f') || ('A' ≤ c && c ≤ 'F')

/-- Whether `ObjectId(s)` succeeds for a string `s`. -/
def isValidObjectIdString (s : String) : Bool :=
  s.length == 12 || (s.length == 24 && s.toList.all isHexDigit)

/-- Whether `ObjectId(v)` succeeds without throwing for a `JsVal`. -/
def objectIdConstructible : JsVal → Bool
  | .str s => isValidObjectIdString s
  | .num _ => true
  | _ => false

/-- The lookup key used for `findOne({ _id: ObjectId(v) })`.  A numeric value
makes `ObjectId` generate a fresh id; that is represented by a synthetic key
outside the hex-string namespace of stored ids. -/
def objectIdKey : JsVal → String
  | .str s => s
  | v => "generated:" ++ v.jsToString

/-! ## Name validation (`validateFileName`, helpers/validateCreateNewFileData.js) -/

/-- The characters of `INVALID_FILE_NAME_CHARACTERS = /[<>:"\/\\|?*]/`. -/
def invalidFileNameChars : List Char := ['<', '>', ':', '"', '/', '\\', '|', '?', '*']

/-- Model of `INVALID_FILE_NAME_CHARACTERS.test(name)`. -/
def hasInvalidFileNameChar (s : String) : Bool :=
  s.toList.any (fun c => invalidFileNameChars.contains c)

/-- Embedding of `validateFileName` — returns `some err` on failure, `none` on success.
The `name` argument is truthy (hence non-empty) at every call site, so the
empty-name branch is kept for fidelity but never fires. -/
def validateFileName (name : String) : Option String :=
  if name.isEmpty then some "Name cannot be empty"
  else if hasInvalidFileNameChar name then some "Name contains invalid characters"
  else if name.length > 255 then
    some "Name exceeds maximum length of 255 characters"
  else none

/-! ## Base64 validation (`validateBase64`, helpers/validateCreateNewFileData.js)

`BASE64_REGEX = /^(?:[A-Z0-9+\/]{4})*(?:[A-Z0-9+\/]{2}==|[A-Z0-9+\/]{3}=)?$/i`
is decided by `b64Match`; `Buffer.byteLength(data, 'base64')` is Node's
`base64ByteLength` (string length minus up to two trailing `=`, times 3,
integer-divided by 4). -/

/-- A character of the case-insensitive base64 alphabet `[A-Za-z0-9+/]`. -/
def isB64Char (c : Char) : Bool :=
  ('A' ≤ c && c ≤ 'Z') || ('a' ≤ c && c ≤ 'z') || c.isDigit || c == '+' || c == '/'

/-- Decides `BASE64_REGEX`: zero or more 4-character alphabet groups, with an
optional final 4-character group padded by `==` or `=`. -/
def b64Match : List Char → Bool
  | [] => true
  | [a, b, c, d] =>
      if c == '=' && d == '=' then isB64Char a && isB64Char b
      else if d == '=' then isB64Char a && isB64Char b && isB64Char c
      else isB64Char a && isB64Char b && isB64Char c && isB64Char d
  | a :: b :: c :: d :: rest =>
      isB64Char a && isB64Char b && isB64Char c && isB64Char d && b64Match rest
  | _ => false

/-- Node's `base64ByteLength`: drop a final `=`, then (if more than one char
remains) a second final `=`, and return `bytes * 3 >>> 2`.  The decrements
act on the exact string length, but the unsigned shift first coerces
`bytes * 3` through ToUint32 — `% 2^32` here — so the result is always below
`2^30`.  The out-of-range `charCodeAt` (which yields `NaN` in JS) is
modelled by the `getD` default. -/
def base64ByteLength (cs : List Char) : Nat :=
  let n := cs.length
  let n1 := if n > 0 && cs.getD (n - 1) '?' == '=' then n - 1 else n
  let n2 := if n1 > 1 && cs.getD (n1 - 1) '?' == '=' then n1 - 1 else n1
  n2 * 3 % 4294967296 / 4

/-- The oversize reason string: the source template
`` `Data exceeds maximum file size of ${formatBytes(MAX_FILE_SIZE)}` `` with
`formatBytes(2147483648) = '2.00 GB'` evaluated. -/
def oversizeDataMsg : String := "Data exceeds maximum file size of 2.00 GB"

/-- Embedding of `validateBase64` — `some err` on failure, `none` on success.  The regex
`test` stringifies a non-string argument; `Buffer.byteLength` is modelled on
the same stringified value (in Node it would throw on a non-string, which is
reachable only for truthy non-string `data` whose stringification matches the
regex; no claim exercises that corner). -/
def validateBase64 (data : JsVal) : Option String :=
  if !data.truthy then some "Data cannot be empty"
  else if !b64Match data.jsToString.toList then some "Invalid Base64 string"
  else if base64ByteLength data.jsToString.toList > MAX_FILE_SIZE then some oversizeDataMsg
  else none

/-! ## Parent validation (`validateParentId`, helpers/validateCreateNewFileData.js) -/

/-- Embedding of `validateParentId` over a files collection in insertion order:
falsy parentId → `'Invalid parent id'`; the sentinel is accepted; an id that
`ObjectId` rejects → `'Parent not found'`; an id matching no document →
`'Parent not found'`; a non-folder parent → `'Parent is not a folder'`. -/
def validateParentId (store : List FileDoc) (parentId : JsVal) : Option String :=
  if !parentId.truthy then some "Invalid parent id"
  else if parentId.jsToString == ROOT_FOLDER_ID then none
  else if !objectIdConstructible parentId then some "Parent not found"
  else
    match store.find? (fun f => f.id == objectIdKey parentId) with
    | none => some "Parent not found"
    | some parentFile =>
        if parentFile.typ != FILE_TYPES_FOLDER then some "Parent is not a folder"
        else none

/-! ## The Tree Validator (`validateCreateNewFileData`) -/

/-- Model of `invalidAttributes.join(', ')` of `validateUnexpectedAttributes`. -/
def joinComma : List String → String
  | [] => ""
  | [k] => k
  | k :: rest => k ++ ", " ++ joinComma rest

/-- Embedding of `validateCreateNewFileData` — the Tree Validator.  Returns `some err` for
`{valid:false, err}` and `none` for `{valid:true}`; the destructuring defaults
(`parentId = ROOT_FOLDER_ID`, `isPublic = false`) fire on absent fields. -/
def validateCreateNewFileData (store : List FileDoc) (b : Body) : Option String :=
  if !b.extraKeys.isEmpty then
    some ("Unexpected attribute(s): " ++ joinComma b.extraKeys)
  else
    if !b.name.truthy then some "Missing name"
    else if !b.typ.truthy then some "Missing type"
    else if !b.name.isString then some "name attr must be a string value"
    else if !b.typ.isString then some "type attr must be a string value"
    else if !isValidFileType b.typ.jsToString then some "Invalid file type"
    else if b.typ.jsToString != FILE_TYPES_FOLDER && !b.data.truthy then some "Missing data"
    else if !(if b.isPublic == JsVal.undefined then JsVal.bool false else b.isPublic).isBool then
      some "isPublic attr must be a boolean value"
    else
      match validateFileName b.name.jsToString with
      | some e => some e
      | none =>
          if b.typ.jsToString == FILE_TYPES_FOLDER && b.name.jsToString.toList.contains '.' then
            some "Folder name should not contain a dot"
          else
            match (if b.typ.jsToString != FILE_TYPES_FOLDER then validateBase64 b.data else none) with
            | some e => some e
            | none =>
                validateParentId store
                  (if b.parentId == JsVal.undefined then JsVal.str ROOT_FOLDER_ID else b.parentId)

example : validateCreateNewFileData [] { name := .str "docs", typ := .str "folder" } = none := by decide

example : validateCreateNewFileData []
    { name := .str "a.txt", typ := .str "file", data := .str "SGVsbG8=" } = none := by decide

/-! ## First-failure presentations of the validation order

`firstFailingReason` returns the reason paired with the first true condition
of an ordered check list.  `specOrderChecks` lists the checks in the order the
specification states them (step 2 bundles the `isPublic` boolean check with
the name/type presence and type checks); `codeOrderChecks` lists them in the
order `validateCreateNewFileData` actually runs them (the `isPublic` boolean
check only after type validity and payload presence). -/

/-- The reason of the first failing check of an ordered list. -/
def firstFailingReason (checks : List (Bool × String)) : Option String :=
  (checks.find? (fun c => c.1)).map (fun c => c.2)

/-- The individual validation conditions and reasons, shared by both orders. -/
def bodyChecks (store : List FileDoc) (b : Body) : Nat → Bool × String
  | 0 => (!b.extraKeys.isEmpty, "Unexpected attribute(s): " ++ joinComma b.extraKeys)
  | 1 => (!b.name.truthy, "Missing name")
  | 2 => (!b.typ.truthy, "Missing type")
  | 3 => (!b.name.isString, "name attr must be a string value")
  | 4 => (!b.typ.isString, "type attr must be a string value")
  | 5 => (!isValidFileType b.typ.jsToString, "Invalid file type")
  | 6 => (b.typ.jsToString != FILE_TYPES_FOLDER && !b.data.truthy, "Missing data")
  | 7 => ((!(if b.isPublic == JsVal.undefined then JsVal.bool false else b.isPublic).isBool),
          "isPublic attr must be a boolean value")
  | 8 => ((validateFileName b.name.jsToString).isSome,
          (validateFileName b.name.jsToString).getD "")
  | 9 => (b.typ.jsToString == FILE_TYPES_FOLDER && b.name.jsToString.toList.contains '.',
          "Folder name should not contain a dot")
  | 10 => (b.typ.jsToString != FILE_TYPES_FOLDER && (validateBase64 b.data).isSome,
           (validateBase64 b.data).getD "")
  | _ =>
      let parentId := if b.parentId == JsVal.undefined then JsVal.str ROOT_FOLDER_ID else b.parentId
      ((validateParentId store parentId).isSome, (validateParentId store parentId).getD "")

/-- The checks in the order the specification lists them: unexpected fields;
name/type presence and string-typing together with the `isPublic` boolean
check (step 2); type validity (step 3); payload presence (step 4); name
validity (step 5); folder dot (step 6); base64/size (step 7); parent
resolution (step 8). -/
def specOrderChecks (store : List FileDoc) (b : Body) : List (Bool × String) :=
  [0, 1, 2, 3, 4, 7, 5, 6, 8, 9, 10, 11].map (bodyChecks store b)

/-- The checks in the order the code runs them: the `isPublic` boolean check
comes only after type validity and payload presence. -/
def codeOrderChecks (store : List FileDoc) (b : Body) : List (Bool × String) :=
  [0, 1, 2, 3, 4, 5, 6, 7, 8, 9, 10, 11].map (bodyChecks store b)

/-- A create-file body whose `isPublic` is a string and whose `data` is
absent: the spec order reports the step-2 `isPublic` reason, the code reports
`'Missing data'`. -/
def bodyPublicStringNoData : Body :=
  { name := .str "a", typ := .str "file", isPublic := .str "yes" }

/-- C1 — counterexample: for `bodyPublicStringNoData`, the earliest violated
step in the specification's order is step 2 (`isPublic` must be boolean), but
the validator reports the step-4 reason `'Missing data'`, so the claimed
order is not the order of the code. -/
theorem c1_counterexample :
    validateCreateNewFileData [] bodyPublicStringNoData = some "Missing data" ∧
    firstFailingReason (specOrderChecks [] bodyPublicStringNoData) =
      some "isPublic attr must be a boolean value" ∧
    (some "Missing data" : Option String) ≠ some "isPublic attr must be a boolean value" := by
  refine ⟨by decide, by decide, by decide⟩

/-- Unfolding step for `firstFailingReason` over an explicit check list. -/
theorem firstFailingReason_cons (c : Bool) (r : String) (l : List (Bool × String)) :
    firstFailingReason ((c, r) :: l) = if c then some r else firstFailingReason l := by
  by_cases h : c = true
  · simp [firstFailingReason, List.find?_cons_of_pos, h]
  · simp only [Bool.not_eq_true] at h
    simp [firstFailingReason, List.find?_cons_of_neg, h]

/-- An empty check list has no failing check. -/
theorem firstFailingReason_nil : firstFailingReason [] = none := rfl

/-- The Tree Validator equals the first-failing-reason presentation of the
code-order check list. -/
theorem validate_eq_codeOrder (store : List FileDoc) (b : Body) :
    validateCreateNewFileData store b = firstFailingReason (codeOrderChecks store b) := by
  simp only [validateCreateNewFileData, codeOrderChecks, bodyChecks, List.map,
    firstFailingReason_cons]
  by_cases h0 : b.extraKeys.isEmpty <;> simp only [h0, Bool.not_true, Bool.not_false,
    if_true, if_false, ite_true, ite_false]
  · by_cases h1 : b.name.truthy <;> simp only [h1, Bool.not_true, Bool.not_false,
      if_true, if_false]
    · by_cases h2 : b.typ.truthy <;> simp only [h2, Bool.not_true, Bool.not_false,
        if_true, if_false]
      · by_cases h3 : b.name.isString <;> simp only [h3, Bool.not_true, Bool.not_false,
          if_true, if_false]
        · by_cases h4 : b.typ.isString <;> simp only [h4, Bool.not_true, Bool.not_false,
            if_true, if_false]
          · by_cases h5 : isValidFileType b.typ.jsToString <;> simp only [h5,
              Bool.not_true, Bool.not_false, if_true, if_false]
            · by_cases h6 : (b.typ.jsToString != FILE_TYPES_FOLDER && !b.data.truthy) <;>
                simp only [h6, if_true, if_false]
              · by_cases h7 :
                    (if b.isPublic == JsVal.undefined then JsVal.bool false else b.isPublic).isBool <;>
                  simp only [h7, Bool.not_true, Bool.not_false, if_true, if_false]
                · cases hv : validateFileName b.name.jsToString with
                  | some e => simp [hv]
                  | none =>
                      simp only [hv, Option.isSome_none, Option.getD_none, if_false,
                        Bool.false_eq_true]
                      by_cases h9 : (b.typ.jsToString == FILE_TYPES_FOLDER &&
                          b.name.jsToString.toList.contains '.') <;>
                        simp only [h9, if_true, if_false]
                      · cases hb : (if b.typ.jsToString != FILE_TYPES_FOLDER then
                            validateBase64 b.data else none) with
                        | some e =>
                            have hfold : (b.typ.jsToString != FILE_TYPES_FOLDER) = true := by
                              by_contra hc
                              simp only [Bool.not_eq_true] at hc
                              simp [hc] at hb
                            simp only [hfold, if_true] at hb
                            simp [hb, hfold]
                        | none =>
                            by_cases hfold : (b.typ.jsToString != FILE_TYPES_FOLDER) = true
                            · simp only [hfold, if_true] at hb
                              simp only [hfold, hb, Option.isSome_none, Bool.true_and,
                                Bool.false_eq_true, if_false]
                              cases hp : validateParentId store
                                  (if b.parentId == JsVal.undefined then JsVal.str ROOT_FOLDER_ID
                                   else b.parentId) with
                              | some e => simp [hp]
                              | none => simp [hp, firstFailingReason_nil]
                            · simp only [Bool.not_eq_true] at hfold
                              simp only [hfold, Bool.false_and, Bool.false_eq_true, if_false]
                              cases hp : validateParentId store
                                  (if b.parentId == JsVal.undefined then JsVal.str ROOT_FOLDER_ID
                                   else b.parentId) with
                              | some e => simp [hp]
                              | none => simp [hp, firstFailingReason_nil]


/-- C1 — amended: the Tree Validator short-circuits through the fixed check
order of `codeOrderChecks` (unexpected fields; name presence; type presence;
name string-typed; type string-typed; type recognized; payload presence when
the type is not folder; `isPublic` boolean; name validity; folder dot;
base64/size; parent resolution) and reports the reason of the first failing
check in that order. -/
theorem c1_amended (store : List FileDoc) (b : Body) :
    validateCreateNewFileData store b = firstFailingReason (codeOrderChecks store b) :=
  validate_eq_codeOrder store b

/-- A check list has no failing check exactly when every condition is false. -/
theorem firstFailingReason_eq_none_iff (l : List (Bool × String)) :
    firstFailingReason l = none ↔ ∀ c ∈ l, c.1 = false := by
  simp [firstFailingReason, List.find?_eq_none]

/-! ## C3 — parent validation failure modes -/

/-- A syntactically invalid id is rejected with the same reason as an id that
matches no document. -/
theorem c3_counterexample :
    isValidObjectIdString "zzz" = false ∧
    validateParentId [] (.str "zzz") = some "Parent not found" ∧
    isValidObjectIdString "aaaaaaaaaaaaaaaaaaaaaaaa" = true ∧
    List.find? (fun f => f.id == "aaaaaaaaaaaaaaaaaaaaaaaa") ([] : List FileDoc) = none ∧
    validateParentId [] (.str "aaaaaaaaaaaaaaaaaaaaaaaa") = some "Parent not found" :=
  ⟨by decide, by decide, by decide, by decide, by decide⟩

/-- A string passing the ObjectId syntax check is non-empty. -/
theorem isEmpty_false_of_validOid (s : String) (h : isValidObjectIdString s = true) :
    s.isEmpty = false := by
  by_cases he : s.isEmpty = true
  · rw [String.isEmpty_iff] at he
    subst he
    simp [isValidObjectIdString] at h
  · simpa using he

/-- C3 — amended: the sentinel root `'0'` is accepted unconditionally; a falsy
`parentId` (absent is defaulted away earlier; `null` or the empty string) is
rejected with `'Invalid parent id'`; a syntactically invalid id and an id
matching no document are both rejected with the same `'Parent not found'`
reason (not distinct reasons); a resolved non-folder parent is rejected with
`'Parent is not a folder'`; a resolved folder parent is accepted. -/
theorem c3_amended (store : List FileDoc) (s : String) (f : FileDoc) :
    (validateParentId store (.str ROOT_FOLDER_ID) = none) ∧
    (validateParentId store .null = some "Invalid parent id") ∧
    (validateParentId store (.str "") = some "Invalid parent id") ∧
    (s.isEmpty = false → s ≠ ROOT_FOLDER_ID → isValidObjectIdString s = false →
      validateParentId store (.str s) = some "Parent not found") ∧
    (s ≠ ROOT_FOLDER_ID → isValidObjectIdString s = true →
      store.find? (fun d => d.id == s) = none →
      validateParentId store (.str s) = some "Parent not found") ∧
    (s ≠ ROOT_FOLDER_ID → isValidObjectIdString s = true →
      store.find? (fun d => d.id == s) = some f → f.typ ≠ FILE_TYPES_FOLDER →
      validateParentId store (.str s) = some "Parent is not a folder") ∧
    (s ≠ ROOT_FOLDER_ID → isValidObjectIdString s = true →
      store.find? (fun d => d.id == s) = some f → f.typ = FILE_TYPES_FOLDER →
      validateParentId store (.str s) = none) := by
  refine ⟨rfl, rfl, rfl, ?_, ?_, ?_, ?_⟩
  · intro hs hroot hv
    simp [validateParentId, JsVal.truthy, JsVal.jsToString, hs, hroot, objectIdConstructible, hv]
  · intro hroot hv hfind
    have hs := isEmpty_false_of_validOid s hv
    simp [validateParentId, JsVal.truthy, JsVal.jsToString, hs, hroot, objectIdConstructible,
      hv, objectIdKey, hfind]
  · intro hroot hv hfind hft
    have hs := isEmpty_false_of_validOid s hv
    simp [validateParentId, JsVal.truthy, JsVal.jsToString, hs, hroot, objectIdConstructible,
      hv, objectIdKey, hfind, hft]
  · intro hroot hv hfind hft
    have hs := isEmpty_false_of_validOid s hv
    simp [validateParentId, JsVal.truthy, JsVal.jsToString, hs, hroot, objectIdConstructible,
      hv, objectIdKey, hfind, hft]

/-- A concrete folder document used by witnesses. -/
def folderDoc : FileDoc :=
  { id := "bbbbbbbbbbbbbbbbbbbbbbbb", userId := "u1", name := "docs",
    typ := "folder", isPublic := false, parentId := "0", localPath := none }

/-- C3 witness: a resolved folder parent is accepted in a concrete store. -/
theorem c3_amended_witness :
    validateParentId [folderDoc] (.str "bbbbbbbbbbbbbbbbbbbbbbbb") = none :=
  (c3_amended [folderDoc] "bbbbbbbbbbbbbbbbbbbbbbbb" folderDoc).2.2.2.2.2.2
    (by decide) (by decide) (by decide) (by decide)

/-! ## C7 — folder names containing a dot -/

/-- A folder body with a dotted name and a non-boolean `isPublic`. -/
def bodyDottedFolderBadPublic : Body :=
  { name := .str "a.b", typ := .str "folder", isPublic := .num 1 }

/-- C7 — counterexample: a folder-creation body whose name contains a dot is
rejected, but with the `isPublic` reason rather than the folder-dot reason,
because the `isPublic` boolean check runs first. -/
theorem c7_counterexample :
    validateCreateNewFileData [] bodyDottedFolderBadPublic =
      some "isPublic attr must be a boolean value" ∧
    (some "isPublic attr must be a boolean value" : Option String) ≠
      some "Folder name should not contain a dot" :=
  ⟨by decide, by decide⟩

/-- A string containing a character is non-empty. -/
theorem isEmpty_false_of_contains (s : String) (h : s.toList.contains '.' = true) :
    s.isEmpty = false := by
  by_cases he : s.isEmpty = true
  · rw [String.isEmpty_iff] at he
    subst he
    simp at h
  · simpa using he

/-- C7 — amended: every folder-creation request whose name contains a dot is
rejected (validation never succeeds), and the reported reason is the
folder-dot reason whenever every earlier check passes (no unexpected fields,
`isPublic` boolean or absent, and a name free of invalid characters and of
length at most 255); an earlier failing check otherwise supplies the reason. -/
theorem c7_amended (store : List FileDoc) (b : Body) (s : String)
    (htyp : b.typ = .str "folder") (hname : b.name = .str s)
    (hdot : s.toList.contains '.' = true) :
    validateCreateNewFileData store b ≠ none ∧
    (b.extraKeys = [] →
      (if b.isPublic == JsVal.undefined then JsVal.bool false else b.isPublic).isBool = true →
      hasInvalidFileNameChar s = false → s.length ≤ 255 →
      validateCreateNewFileData store b = some "Folder name should not contain a dot") := by
  have hsne : s.isEmpty = false := isEmpty_false_of_contains s hdot
  have hdotmem : '.' ∈ s.data := by simpa using hdot
  constructor
  · intro hnone
    rw [validate_eq_codeOrder, firstFailingReason_eq_none_iff] at hnone
    have hmem : bodyChecks store b 9 ∈ codeOrderChecks store b := by
      apply List.mem_map_of_mem
      decide
    have h9 := hnone (bodyChecks store b 9) hmem
    simp [bodyChecks, htyp, hname, JsVal.jsToString, hdot] at h9
    exact h9 rfl hdotmem
  · intro hkeys hpub hchars hlen
    have hpub2 : (if b.isPublic = JsVal.undefined then JsVal.bool false else b.isPublic).isBool
        = true := by simpa using hpub
    have hfe : "folder".isEmpty = false := by decide
    rw [validate_eq_codeOrder]
    simp only [codeOrderChecks, bodyChecks, List.map, firstFailingReason_cons]
    simp [htyp, hname, hkeys, hsne, hchars, hpub2, hdotmem, hfe, validateFileName,
      JsVal.truthy, JsVal.isString, JsVal.jsToString, isValidFileType,
      FILE_TYPES_FOLDER, Nat.not_lt.mpr hlen]

/-- C7 witness: a concrete well-formed dotted folder body gets exactly the
folder-dot reason, and is in particular rejected. -/
theorem c7_amended_witness :
    validateCreateNewFileData [] { name := .str "a.b", typ := .str "folder" } =
      some "Folder name should not contain a dot" :=
  (c7_amended [] { name := .str "a.b", typ := .str "folder" } "a.b" rfl rfl (by decide)).2
    rfl (by decide) (by decide) (by decide)

/-! ## C4 — base64 round-trip

The round-trip side of the claim encodes a byte payload with
`Buffer.toString('base64')`; that encoder is the standard RFC 4648 base64
with padding, modelled by `base64Encode`. -/

/-- The base64 character of a 6-bit value (out-of-range values, which never
arise from the encoder, default to `'A'`). -/
def b64CharOf (n : Nat) : Char :=
  "ABCDEFGHIJKLMNOPQRSTUVWXYZabcdefghijklmnopqrstuvwxyz0123456789+/".toList.getD n 'A'

/-- Standard base64: three input bytes become four output characters; a final
1-byte group is padded with `==`, a final 2-byte group with `=`. -/
def base64EncodeChunks : List Nat → List Char
  | b1 :: b2 :: b3 :: rest =>
      b64CharOf (b1 / 4) :: b64CharOf (b1 % 4 * 16 + b2 / 16) ::
      b64CharOf (b2 % 16 * 4 + b3 / 64) :: b64CharOf (b3 % 64) ::
      base64EncodeChunks rest
  | [b1, b2] =>
      [b64CharOf (b1 / 4), b64CharOf (b1 % 4 * 16 + b2 / 16), b64CharOf (b2 % 16 * 4), '=']
  | [b1] => [b64CharOf (b1 / 4), b64CharOf (b1 % 4 * 16), '=', '=']
  | [] => []

/-- Model of `Buffer.from(bytes).toString('base64')`. -/
def base64Encode (bytes : List Nat) : String := ⟨base64EncodeChunks bytes⟩

example : base64Encode [72, 101, 108, 108, 111] = "SGVsbG8=" := by decide

/-- Every character produced by the encoder is in the base64 alphabet. -/
theorem isB64Char_b64CharOf (n : Nat) : isB64Char (b64CharOf n) = true := by
  have hall : ∀ c ∈ "ABCDEFGHIJKLMNOPQRSTUVWXYZabcdefghijklmnopqrstuvwxyz0123456789+/".toList,
      isB64Char c = true := by decide
  unfold b64CharOf
  rw [List.getD_eq_getElem?_getD]
  rcases h : "ABCDEFGHIJKLMNOPQRSTUVWXYZabcdefghijklmnopqrstuvwxyz0123456789+/".toList[n]? with
    _ | c
  · decide
  · have hc := List.getElem?_mem h
    simpa using hall c hc

/-- The encoder never emits a padding character from the alphabet. -/
theorem b64CharOf_ne_pad (n : Nat) : (b64CharOf n == '=') = false := by
  have hall : ∀ c ∈ "ABCDEFGHIJKLMNOPQRSTUVWXYZabcdefghijklmnopqrstuvwxyz0123456789+/".toList,
      (c == '=') = false := by decide
  unfold b64CharOf
  rw [List.getD_eq_getElem?_getD]
  rcases h : "ABCDEFGHIJKLMNOPQRSTUVWXYZabcdefghijklmnopqrstuvwxyz0123456789+/".toList[n]? with
    _ | c
  · decide
  · have hc := List.getElem?_mem h
    simpa using hall c hc

/-- Encoder output is empty or at least four characters long. -/
theorem base64EncodeChunks_shape (bytes : List Nat) :
    base64EncodeChunks bytes = [] ∨ 4 ≤ (base64EncodeChunks bytes).length := by
  match bytes with
  | [] => exact Or.inl rfl
  | [b1] => right; simp [base64EncodeChunks]
  | [b1, b2] => right; simp [base64EncodeChunks]
  | b1 :: b2 :: b3 :: rest => right; simp [base64EncodeChunks]

/-- The encoder's output always matches `BASE64_REGEX`. -/
theorem b64Match_base64EncodeChunks (bytes : List Nat) :
    b64Match (base64EncodeChunks bytes) = true := by
  match bytes with
  | [] => rfl
  | [b1] =>
      simp [base64EncodeChunks, b64Match, isB64Char_b64CharOf]
  | [b1, b2] =>
      simp [base64EncodeChunks, b64Match, b64CharOf_ne_pad, isB64Char_b64CharOf]
  | b1 :: b2 :: b3 :: rest =>
      have ih := b64Match_base64EncodeChunks rest
      rcases hr : base64EncodeChunks rest with _ | ⟨x, xs⟩
      · simp [base64EncodeChunks, hr, b64Match, b64CharOf_ne_pad, isB64Char_b64CharOf]
      · rw [hr] at ih
        simp [base64EncodeChunks, hr, b64Match, isB64Char_b64CharOf, ih]

/-- The padding-stripped length computed inside `base64ByteLength`. -/
def b64Stripped (cs : List Char) : Nat :=
  let n := cs.length
  let n1 := if n > 0 && cs.getD (n - 1) '?' == '=' then n - 1 else n
  if n1 > 1 && cs.getD (n1 - 1) '?' == '=' then n1 - 1 else n1

/-- Lemma: `base64ByteLength` factors through the stripped length. -/
theorem base64ByteLength_eq_stripped (cs : List Char) :
    base64ByteLength cs = b64Stripped cs * 3 % 4294967296 / 4 := rfl

/-- Lemma: `getD` of a four-cons list at an index past the prefix reads the tail. -/
theorem getD_cons4 (a b c d x : Char) (cs : List Char) (i : Nat) (h : 4 ≤ i) :
    (a :: b :: c :: d :: cs).getD i x = cs.getD (i - 4) x := by
  obtain ⟨j, rfl⟩ : ∃ j, i = j + 4 := ⟨i - 4, by omega⟩
  rw [show j + 4 = j + 1 + 1 + 1 + 1 from by omega]
  simp only [List.getD_cons_succ]
  rw [show j + 1 + 1 + 1 + 1 - 4 = j from by omega]

/-- A list not ending in `=` strips to its full length. -/
theorem b64Stripped_no_pad (cs : List Char)
    (hlast : (cs.getD (cs.length - 1) '?' == '=') = false) :
    b64Stripped cs = cs.length := by
  unfold b64Stripped
  simp only [hlast, Bool.and_false, Bool.false_eq_true, if_false]

/-- A list of length at least 4 ending in a single `=` strips off one char. -/
theorem b64Stripped_one_pad (cs : List Char) (hlen : 4 ≤ cs.length)
    (hlast : (cs.getD (cs.length - 1) '?' == '=') = true)
    (hprev : (cs.getD (cs.length - 2) '?' == '=') = false) :
    b64Stripped cs = cs.length - 1 := by
  have h0 : (decide (cs.length > 0)) = true := by simp; omega
  have h1 : (decide (cs.length - 1 > 1)) = true := by simp; omega
  have e : cs.length - 1 - 1 = cs.length - 2 := by omega
  unfold b64Stripped
  simp only [h0, hlast, Bool.and_self, Bool.true_and, if_true, e, h1, hprev,
    Bool.and_false, Bool.false_eq_true, if_false]

/-- A list of length at least 4 ending in `==` strips off two chars. -/
theorem b64Stripped_two_pad (cs : List Char) (hlen : 4 ≤ cs.length)
    (hlast : (cs.getD (cs.length - 1) '?' == '=') = true)
    (hprev : (cs.getD (cs.length - 2) '?' == '=') = true) :
    b64Stripped cs = cs.length - 2 := by
  have h0 : (decide (cs.length > 0)) = true := by simp; omega
  have h1 : (decide (cs.length - 1 > 1)) = true := by simp; omega
  have e : cs.length - 1 - 1 = cs.length - 2 := by omega
  unfold b64Stripped
  simp only [h0, hlast, Bool.and_self, Bool.true_and, if_true, e, h1, hprev,
    Bool.and_false, Bool.false_eq_true, if_false]

/-- Stripping a list of the form `a :: b :: c :: d :: cs` where `d` is not a
padding character and `cs` has the encoder's shape strips within `cs`. -/
theorem b64Stripped_cons4 (a b c d : Char) (cs : List Char)
    (hd : (d == '=') = false) (hcs : cs = [] ∨ 4 ≤ cs.length) :
    b64Stripped (a :: b :: c :: d :: cs) = 4 + b64Stripped cs := by
  rcases hcs with rfl | h
  · simp [b64Stripped, hd]
  · have hlen : (a :: b :: c :: d :: cs).length = cs.length + 4 := by
      simp only [List.length_cons]
    have eL1 : (a :: b :: c :: d :: cs).getD ((a :: b :: c :: d :: cs).length - 1) '?'
        = cs.getD (cs.length - 1) '?' := by
      rw [hlen, getD_cons4 a b c d '?' cs (cs.length + 4 - 1) (by omega)]
      rw [show cs.length + 4 - 1 - 4 = cs.length - 1 from by omega]
    have eL2 : (a :: b :: c :: d :: cs).getD ((a :: b :: c :: d :: cs).length - 2) '?'
        = cs.getD (cs.length - 2) '?' := by
      rw [hlen, getD_cons4 a b c d '?' cs (cs.length + 4 - 2) (by omega)]
      rw [show cs.length + 4 - 2 - 4 = cs.length - 2 from by omega]
    by_cases hg1 : (cs.getD (cs.length - 1) '?' == '=') = true
    · by_cases hg2 : (cs.getD (cs.length - 2) '?' == '=') = true
      · rw [b64Stripped_two_pad (a :: b :: c :: d :: cs) (by rw [hlen]; omega)
            (by rw [eL1]; exact hg1) (by rw [eL2]; exact hg2),
          b64Stripped_two_pad cs h hg1 hg2, hlen]
        omega
      · rw [Bool.not_eq_true] at hg2
        rw [b64Stripped_one_pad (a :: b :: c :: d :: cs) (by rw [hlen]; omega)
            (by rw [eL1]; exact hg1) (by rw [eL2]; exact hg2),
          b64Stripped_one_pad cs h hg1 hg2, hlen]
        omega
    · rw [Bool.not_eq_true] at hg1
      rw [b64Stripped_no_pad (a :: b :: c :: d :: cs) (by rw [eL1]; exact hg1),
        b64Stripped_no_pad cs hg1, hlen]
      omega

/-- The padding-stripped character count of an encoded payload, times 3,
divided by 4, recovers the payload's exact byte length. -/
theorem b64Stripped_encode (bytes : List Nat) :
    b64Stripped (base64EncodeChunks bytes) * 3 / 4 = bytes.length := by
  match bytes with
  | [] => rfl
  | [b1] =>
      rw [show base64EncodeChunks [b1]
          = [b64CharOf (b1 / 4), b64CharOf (b1 % 4 * 16), '=', '='] from rfl,
        b64Stripped_two_pad _ (by simp) (by simp) (by simp)]
      simp
  | [b1, b2] =>
      rw [show base64EncodeChunks [b1, b2]
          = [b64CharOf (b1 / 4), b64CharOf (b1 % 4 * 16 + b2 / 16),
             b64CharOf (b2 % 16 * 4), '='] from rfl,
        b64Stripped_one_pad _ (by simp) (by simp) (by simp [b64CharOf_ne_pad])]
      simp
  | b1 :: b2 :: b3 :: rest =>
      have ih := b64Stripped_encode rest
      rw [show base64EncodeChunks (b1 :: b2 :: b3 :: rest)
          = b64CharOf (b1 / 4) :: b64CharOf (b1 % 4 * 16 + b2 / 16) ::
            b64CharOf (b2 % 16 * 4 + b3 / 64) :: b64CharOf (b3 % 64) ::
            base64EncodeChunks rest from rfl,
        b64Stripped_cons4 _ _ _ _ _ (b64CharOf_ne_pad _) (base64EncodeChunks_shape rest),
        show (4 + b64Stripped (base64EncodeChunks rest)) * 3
          = 4 * 3 + b64Stripped (base64EncodeChunks rest) * 3 from by ring,
        Nat.mul_add_div (by norm_num), ih]
      simp only [List.length_cons]
      omega

/-- The `Buffer.byteLength(•, 'base64')` of an encoded payload is the
payload's byte length reduced modulo `2^30`: the exact ratio computation is
wrapped by the unsigned shift's ToUint32 coercion. -/
theorem base64ByteLength_encode (bytes : List Nat) :
    base64ByteLength (base64EncodeChunks bytes) = bytes.length % 1073741824 := by
  rw [base64ByteLength_eq_stripped,
    show (4294967296 : Nat) = 4 * 1073741824 from rfl,
    Nat.mod_mul_right_div_self, b64Stripped_encode]

/-- `Buffer.byteLength(•, 'base64')` is always below `2^30`, hence below the
2 GiB limit: the oversize comparison of `validateBase64` can never be true. -/
theorem base64ByteLength_lt_max (cs : List Char) :
    base64ByteLength cs < MAX_FILE_SIZE := by
  rw [base64ByteLength_eq_stripped]
  unfold MAX_FILE_SIZE
  omega

/-- A non-empty payload has a non-empty encoding. -/
theorem base64EncodeChunks_ne_nil (bytes : List Nat) (h : bytes ≠ []) :
    base64EncodeChunks bytes ≠ [] := by
  match bytes with
  | [b1] => simp [base64EncodeChunks]
  | [b1, b2] => simp [base64EncodeChunks]
  | b1 :: b2 :: b3 :: rest => simp [base64EncodeChunks]

/-- A non-empty payload's encoding is a non-empty string. -/
theorem base64Encode_isEmpty_false (bytes : List Nat) (h : bytes ≠ []) :
    (base64Encode bytes).isEmpty = false := by
  by_cases he : (base64Encode bytes).isEmpty = true
  · rw [String.isEmpty_iff] at he
    have : base64EncodeChunks bytes = [] := congrArg String.data he
    exact absurd this (base64EncodeChunks_ne_nil bytes h)
  · simpa using he

/-- Lemma: `validateBase64` accepts the encoding of every non-empty payload,
of any decoded length — non-empty, in the base64 language, and never over
the (unreachable) size limit. -/
theorem validateBase64_encode_pass (bytes : List Nat) (h : bytes ≠ []) :
    validateBase64 (.str (base64Encode bytes)) = none := by
  have he := base64Encode_isEmpty_false bytes h
  have hm : b64Match (base64Encode bytes).toList = true := b64Match_base64EncodeChunks bytes
  have hb : base64ByteLength (base64Encode bytes).data < MAX_FILE_SIZE :=
    base64ByteLength_lt_max (base64Encode bytes).toList
  have hcond : ¬(base64ByteLength (base64Encode bytes).data > MAX_FILE_SIZE) := by omega
  unfold validateBase64
  simp only [JsVal.truthy, JsVal.jsToString, he, Bool.not_false, Bool.not_true, if_false,
    hm]
  simp [hcond]

/-- Lemma: no input at all is rejected with the oversize reason — the wrapped
byte length is always below the limit, so the oversize branch is dead. -/
theorem validateBase64_never_oversize (d : JsVal) :
    validateBase64 d ≠ some oversizeDataMsg := by
  unfold validateBase64
  by_cases h1 : d.truthy = true
  · simp only [h1, Bool.not_true, Bool.false_eq_true, if_false]
    by_cases h2 : b64Match d.jsToString.toList = true
    · simp only [h2, Bool.not_true, Bool.false_eq_true, if_false]
      have hb : base64ByteLength d.jsToString.data < MAX_FILE_SIZE :=
        base64ByteLength_lt_max d.jsToString.toList
      have hcond : ¬(base64ByteLength d.jsToString.data > MAX_FILE_SIZE) := by omega
      simp [hcond]
    · simp only [Bool.not_eq_true] at h2
      simp only [h2, Bool.not_false, if_true]
      decide
  · simp only [Bool.not_eq_true] at h1
    simp only [h1, Bool.not_false, if_true]
    decide

/-- C4 — counterexample: the empty payload has decoded length `0 ≤ 2 GiB`,
yet its encoding (the empty string) is rejected; and a payload of
`2^31 + 1` zero bytes has decoded length above 2 GiB, yet its encoding
passes validation, because the size comparison sees the 32-bit-wrapped byte
count. -/
theorem c4_counterexample :
    base64Encode [] = "" ∧
    ([] : List Nat).length ≤ MAX_FILE_SIZE ∧
    validateBase64 (.str (base64Encode [])) = some "Data cannot be empty" ∧
    MAX_FILE_SIZE < (List.replicate 2147483649 (0 : Nat)).length ∧
    validateBase64 (.str (base64Encode (List.replicate 2147483649 (0 : Nat)))) = none := by
  have hne : List.replicate 2147483649 (0 : Nat) ≠ [] := by
    intro hc
    have hlen := congrArg List.length hc
    rw [List.length_replicate, List.length_nil] at hlen
    exact absurd hlen (by decide)
  refine ⟨rfl, by decide, by decide, ?_, validateBase64_encode_pass _ hne⟩
  rw [List.length_replicate]
  decide

/-- C4 — amended: encoding any non-empty byte payload to base64 and
validating it as the `data` field succeeds regardless of decoded length: the
size check compares `(bytes * 3) >>> 2`, whose ToUint32 wrap keeps it below
`2^30` (it equals the decoded length only modulo `2^30`), so the oversize
rejection is unreachable for every input; the empty payload encodes to the
empty string and is rejected with the empty-data reason; a non-empty string
outside the base64 language is rejected with the malformed reason; the
empty-data, malformed and (dead) oversize reasons are pairwise distinct. -/
theorem c4_amended (bytes : List Nat) (s : String) (d : JsVal) :
    (bytes ≠ [] → validateBase64 (.str (base64Encode bytes)) = none) ∧
    validateBase64 d ≠ some oversizeDataMsg ∧
    base64ByteLength (base64EncodeChunks bytes) = bytes.length % 1073741824 ∧
    (s.isEmpty = false → b64Match s.toList = false →
      validateBase64 (.str s) = some "Invalid Base64 string") ∧
    "Invalid Base64 string" ≠ oversizeDataMsg ∧
    "Invalid Base64 string" ≠ "Data cannot be empty" ∧
    oversizeDataMsg ≠ "Data cannot be empty" := by
  refine ⟨validateBase64_encode_pass bytes, validateBase64_never_oversize d,
    base64ByteLength_encode bytes, ?_, by decide, by decide, by decide⟩
  intro hs hm
  unfold validateBase64
  simp only [JsVal.truthy, JsVal.jsToString, hs, hm, Bool.not_false, Bool.not_true,
    if_false, if_true]
  simp

/-- C4 witness: the five-byte payload `"Hello"` round-trips (its encoding
`SGVsbG8=` passes payload validation), and a concrete malformed string is
rejected with the malformed reason. -/
theorem c4_amended_witness :
    validateBase64 (.str (base64Encode [72, 101, 108, 108, 111])) = none ∧
    validateBase64 (.str "not base64!") = some "Invalid Base64 string" :=
  ⟨(c4_amended [72, 101, 108, 108, 111] "x" .null).1 (by decide),
   (c4_amended [] "not base64!" .null).2.2.2.1 (by decide) (by decide)⟩

/-! ## C8 — pagination (`paginateCollection`, `FilesController.getIndex`) -/

/-- Embedding of the cited `paginateCollection` helper (part_003 lines
11-22): the aggregation pipeline `$match`, then `$project(projection)` with
the empty default, then `$skip(page * pageSize)`, then `$limit(pageSize)`,
over a collection held in insertion order.  MongoDB rejects an empty
`$project` document, so with the default projection the aggregate raises
instead of producing a page; no caller passes a non-empty projection, whose
field reshaping is therefore not modelled beyond keeping the documents. -/
def paginateCollection (docs : List FileDoc) (query : FileDoc → Bool)
    (page pageSize : Nat) (projection : List String := []) :
    Except String (List FileDoc) :=
  if projection.isEmpty then
    .error "Invalid $project :: projection specification must have at least one field"
  else
    .ok (((docs.filter query).drop (page * pageSize)).take pageSize)

/-- Response of `GET /files` (`FilesController.getIndex`). -/
inductive GetIndexResult where
  | ok (files : List FileDoc)     -- 200 with the page of documents
  | invalidParent                 -- 404 with the invalid-parent reason
  | internalError                 -- 500 with the generic server-fault reason
deriving DecidableEq, Repr

/-- Embedding of `FilesController.getIndex` (part_010 lines 93-129):
`req.query.parentId || ROOT_FOLDER_ID` defaults an absent or empty query to
the root sentinel, `page` defaults to 0, `pageSize` is fixed at 20; a
non-sentinel `parentId` that `ObjectId` rejects is a 404; the aggregate of
`paginateCollection` (called without a projection argument) raising lands in
the catch block as the 500 server fault. -/
def getIndex (docs : List FileDoc) (userId : String) (parentIdQ : Option String)
    (page : Nat) : GetIndexResult :=
  let parentId := match parentIdQ with
    | none => ROOT_FOLDER_ID
    | some s => if s.isEmpty then ROOT_FOLDER_ID else s
  if parentId != ROOT_FOLDER_ID && !isValidObjectIdString parentId then .invalidParent
  else
    match paginateCollection docs
        (fun f => f.userId == userId && f.parentId == parentId) page 20 with
    | .error _ => .internalError
    | .ok files => .ok files

/-- C8 — the claim is right about the intent and the code is a slip: the
cited helper always sends the default empty `$project` stage, which the
store rejects, so the aggregate never yields a page and every listing that
passes the parent check — any owner, any parentId, any page, out of range or
not — answers the generic 500 fault instead of a (possibly empty) sequence. -/
theorem c8_code_bug (docs : List FileDoc) (query : FileDoc → Bool)
    (userId : String) (page : Nat) :
    paginateCollection docs query page 20 =
      .error "Invalid $project :: projection specification must have at least one field" ∧
    getIndex docs userId none page = .internalError :=
  ⟨rfl, rfl⟩

/-! ## C6 — visibility mutation (`FilesController.updateFileVisibility`) -/

/-- Model of `updateOne({ _id }, { $set: { isPublic } })`: set the flag on the first
document matching the id. -/
def setIsPublicFirst (fileId : String) (isPublic : Bool) : List FileDoc → List FileDoc
  | [] => []
  | f :: rest =>
      if f.id == fileId then { f with isPublic := isPublic } :: rest
      else f :: setIsPublicFirst fileId isPublic rest

/-- Embedding of `FilesController.updateFileVisibility(fileId, isPublic, userId)`: look up
the document by id and owner; if absent return `null` without writing,
otherwise `$set` the flag and re-fetch by id.  The pair is the store after
the call together with the controller's result (`none` is surfaced as the
404 not-found response by `putPublish`/`putUnpublish`). -/
def updateFileVisibility (store : List FileDoc) (fileId : String) (isPublic : Bool)
    (userId : String) : List FileDoc × Option FileDoc :=
  match store.find? (fun f => f.id == fileId && f.userId == userId) with
  | none => (store, none)
  | some _ =>
      let store2 := setIsPublicFirst fileId isPublic store
      (store2, store2.find? (fun f => f.id == fileId))

/-- C6 — a publish/unpublish whose target exists but belongs to a different
user returns the absent result (surfaced as not-found) and leaves the store —
in particular the target's `isPublic` and every other field — unchanged. -/
theorem c6_confirmed (store : List FileDoc) (fileId userId : String) (isPublic : Bool)
    (hexists : ∃ f ∈ store, f.id = fileId)
    (hother : ∀ f ∈ store, f.id = fileId → f.userId ≠ userId) :
    updateFileVisibility store fileId isPublic userId = (store, none) := by
  have hnone : store.find? (fun f => f.id == fileId && f.userId == userId) = none := by
    rw [List.find?_eq_none]
    intro f hf
    by_cases hid : f.id = fileId
    · simp [hid, hother f hf hid]
    · simp [hid]
  unfold updateFileVisibility
  rw [hnone]

/-- A private file owned by `u1`, used by witnesses. -/
def privateFileDoc : FileDoc :=
  { id := "cccccccccccccccccccccccc", userId := "u1", name := "a.txt",
    typ := "file", isPublic := false, parentId := "0",
    localPath := some "/tmp/files_manager/x" }

/-- C6 witness: caller `u2` publishing `u1`'s file gets the absent result and
the store is unchanged. -/
theorem c6_confirmed_witness :
    updateFileVisibility [privateFileDoc] "cccccccccccccccccccccccc" true "u2"
      = ([privateFileDoc], none) :=
  c6_confirmed [privateFileDoc] "cccccccccccccccccccccccc" "u2" true
    ⟨privateFileDoc, by decide⟩ (by decide)

/-! ## C2 — payload reads (`FilesController.getFile`, unnamed part_010) -/

/-- Result of the payload-read handler.  The `Content-Type` header inferred
by the `mime` package from the name is outside the model; `notFound` covers
the invalid-id, unknown-id, not-visible and blob-missing 404 responses,
which the handler distinguishes only by reaching them in order. -/
inductive GetFileResult where
  | invalidId
  | notFound
  | folderNoContent
  | payload (bytes : List Nat)
deriving DecidableEq, Repr

/-- Embedding of `FilesController.getFile`: the caller is resolved from the `X-Token`
header against the session store (an absent or unresolvable token leaves the
caller anonymous — the route mounts no auth middleware); then: 404 on a
syntactically invalid id; 404 on an unknown id; 404 when the file is private
and the caller is not the owner; folder rejection; 404 when the blob is
missing on disk; otherwise the blob's bytes. -/
def getFile (store : List FileDoc) (blobs : List (String × List Nat))
    (sessions : List (String × String)) (token : Option String) (fileId : String) :
    GetFileResult :=
  let userId : Option String := token.bind (fun t => sessions.lookup ("auth_" ++ t))
  if !isValidObjectIdString fileId then .invalidId
  else
    match store.find? (fun f => f.id == fileId) with
    | none => .notFound
    | some file =>
        if !file.isPublic && userId != some file.userId then .notFound
        else if file.typ == FILE_TYPES_FOLDER then .folderNoContent
        else
          match file.localPath.bind (fun p => blobs.lookup p) with
          | none => .notFound
          | some bytes => .payload bytes

/-- C2 — for an existing node: a public non-folder node's stored payload
bytes are returned even with no session token; a private node is a not-found
for every caller that does not resolve to its owner (in particular an
unauthenticated one); a folder the caller may see is rejected with the
payload-not-applicable signal. -/
theorem c2_confirmed (store : List FileDoc) (blobs : List (String × List Nat))
    (sessions : List (String × String)) (fileId : String) (file : FileDoc)
    (hv : isValidObjectIdString fileId = true)
    (hfind : store.find? (fun f => f.id == fileId) = some file) :
    (file.isPublic = true → file.typ ≠ FILE_TYPES_FOLDER →
      ∀ p bytes, file.localPath = some p → blobs.lookup p = some bytes →
      getFile store blobs sessions none fileId = .payload bytes) ∧
    (file.isPublic = false → ∀ token : Option String,
      token.bind (fun t => sessions.lookup ("auth_" ++ t)) ≠ some file.userId →
      getFile store blobs sessions token fileId = .notFound) ∧
    (∀ token : Option String, file.typ = FILE_TYPES_FOLDER →
      (file.isPublic = true ∨
        token.bind (fun t => sessions.lookup ("auth_" ++ t)) = some file.userId) →
      getFile store blobs sessions token fileId = .folderNoContent) := by
  refine ⟨?_, ?_, ?_⟩
  · intro hpub htyp p bytes hp hbytes
    unfold getFile
    simp [hv, hfind, hpub, htyp, hp, hbytes]
  · intro hpriv token htok
    unfold getFile
    simp [hv, hfind, hpriv, htok]
  · intro token htyp hsee
    unfold getFile
    rcases hsee with hpub | hown
    · simp [hv, hfind, hpub, htyp]
    · simp [hv, hfind, hown, htyp]

/-- A public file owned by `u1` with a stored blob, used by witnesses. -/
def publicFileDoc : FileDoc :=
  { id := "dddddddddddddddddddddddd", userId := "u1", name := "hello.txt",
    typ := "file", isPublic := true, parentId := "0",
    localPath := some "/tmp/files_manager/h" }

/-- C2 witness: with no token at all, the public file's bytes come back, and
flipping the same document to private turns the same request into not-found. -/
theorem c2_confirmed_witness :
    getFile [publicFileDoc] [("/tmp/files_manager/h", [72, 101, 108, 108, 111])] []
      none "dddddddddddddddddddddddd" = .payload [72, 101, 108, 108, 111] ∧
    getFile [{ publicFileDoc with isPublic := false }]
      [("/tmp/files_manager/h", [72, 101, 108, 108, 111])] []
      none "dddddddddddddddddddddddd" = .notFound :=
  ⟨(c2_confirmed [publicFileDoc] [("/tmp/files_manager/h", [72, 101, 108, 108, 111])] []
      "dddddddddddddddddddddddd" publicFileDoc (by decide) (by decide)).1
      (by decide) (by decide) "/tmp/files_manager/h" [72, 101, 108, 108, 111]
      (by decide) (by decide),
   (c2_confirmed [{ publicFileDoc with isPublic := false }]
      [("/tmp/files_manager/h", [72, 101, 108, 108, 111])] []
      "dddddddddddddddddddddddd" { publicFileDoc with isPublic := false }
      (by decide) (by decide)).2.1 (by decide) none (by decide)⟩

/-! ## C5 — create-node responses (`FilesController.createFolder`/`createFile`) -/

/-- The metadata object `postUpload` assembles before insertion:
`{ userId: ObjectId(userId), name, type, isPublic, parentId: formatParentId(parentId) }`. -/
structure FileData where
  userId : String
  name : String
  typ : String
  isPublic : Bool
  parentId : String     -- `ROOT_FOLDER_ID` or the parent's ObjectId hex string
deriving DecidableEq, Repr

/-- How the 201 response echoes `parentId`: the JSON number `0` for a root
parent (`fileData.parentId === ROOT_FOLDER_ID ? 0 : fileData.parentId`), the
parent id otherwise. -/
inductive EchoedParent where
  | rootZero
  | oid (s : String)
deriving DecidableEq, Repr

/-- The JSON body of a 201 create response; `localPath` is present exactly
when the serialized object carries the internal blob path key, and `mongoId`
is the body's `_id` key — the driver's `insertOne` assigns the generated
ObjectId to the document object it is passed (no `forceServerObjectId`), and
this controller variant spreads that mutated object without an
`_id: undefined` scrub, so `_id` reaches the body. -/
structure CreateResponse where
  id : String
  userId : String
  name : String
  typ : String
  isPublic : Bool
  parentId : EchoedParent
  localPath : Option String
  mongoId : Option String
deriving DecidableEq, Repr

/-- Model of `fileData.parentId === ROOT_FOLDER_ID ? 0 : fileData.parentId`. -/
def echoParent (p : String) : EchoedParent :=
  if p == ROOT_FOLDER_ID then .rootZero else .oid p

/-- Embedding of `FilesController.createFolder(fileData, res)`: insert `fileData`
(which `insertOne` mutates by assigning the generated `_id`) and respond 201
with `{ id: insertedId, ...fileData, parentId: echo }` — the spread carries
the assigned `_id` into the body.  Returns the inserted document and the
response. -/
def createFolder (newId : String) (fd : FileData) : FileDoc × CreateResponse :=
  ({ id := newId, userId := fd.userId, name := fd.name, typ := fd.typ,
     isPublic := fd.isPublic, parentId := fd.parentId, localPath := none },
   { id := newId, userId := fd.userId, name := fd.name, typ := fd.typ,
     isPublic := fd.isPublic, parentId := echoParent fd.parentId, localPath := none,
     mongoId := some newId })

/-- Embedding of `FilesController.createFile(fileData, data, res)` on the success path:
`saveFile` stores the blob and yields `savedPath`, the copy of `fileData`
carrying `localPath` is inserted (and mutated by `insertOne` with the
generated `_id`), and the 201 response spreads that copy — `localPath` and
`_id` included — with the echoed `parentId`. -/
def createFile (newId savedPath : String) (fd : FileData) : FileDoc × CreateResponse :=
  ({ id := newId, userId := fd.userId, name := fd.name, typ := fd.typ,
     isPublic := fd.isPublic, parentId := fd.parentId, localPath := some savedPath },
   { id := newId, userId := fd.userId, name := fd.name, typ := fd.typ,
     isPublic := fd.isPublic, parentId := echoParent fd.parentId,
     localPath := some savedPath, mongoId := some newId })

/-- The specification's public projection of a Node —
`{id, ownerId, name, kind, isPublic, parentId}` with the root parent echoed
and no internal field (`localPath` and `_id` absent).  Stated from the
spec's words as the comparison point for the response bodies. -/
def specProjection (doc : FileDoc) : CreateResponse :=
  { id := doc.id, userId := doc.userId, name := doc.name, typ := doc.typ,
    isPublic := doc.isPublic, parentId := echoParent doc.parentId, localPath := none,
    mongoId := none }

/-- A concrete file-creation metadata object used by the counterexample. -/
def fileDataTxt : FileData :=
  { userId := "u1", name := "a.txt", typ := "file", isPublic := false, parentId := "0" }

/-- A concrete folder-creation metadata object used by the counterexample. -/
def folderDataDocs : FileData :=
  { userId := "u1", name := "docs", typ := "folder", isPublic := false, parentId := "0" }

/-- C5 — counterexample: neither successful creation responds with the public
projection of the created node — the folder body additionally exposes the
driver-assigned `_id`, and the file body exposes `_id` and the internal
`localPath` blob reference. -/
theorem c5_counterexample :
    (createFolder "f0" folderDataDocs).2 ≠
      specProjection (createFolder "f0" folderDataDocs).1 ∧
    (createFolder "f0" folderDataDocs).2.mongoId = some "f0" ∧
    (createFile "f1" "/tmp/files_manager/u" fileDataTxt).2 ≠
      specProjection (createFile "f1" "/tmp/files_manager/u" fileDataTxt).1 ∧
    (createFile "f1" "/tmp/files_manager/u" fileDataTxt).2.localPath =
      some "/tmp/files_manager/u" ∧
    (createFile "f1" "/tmp/files_manager/u" fileDataTxt).2.mongoId = some "f1" :=
  ⟨by decide, by decide, by decide, by decide, by decide⟩

/-- C5 — amended: a successful folder creation responds with the created
node's public projection (root parent echoed as the numeric sentinel) plus
the internal driver-assigned `_id` field; a successful file/image creation
responds with the projection plus the internal `_id` and `localPath`
fields — in neither case exactly the public projection. -/
theorem c5_amended (newId savedPath : String) (fd : FileData) :
    (createFolder newId fd).2 =
      { specProjection (createFolder newId fd).1 with mongoId := some newId } ∧
    (createFile newId savedPath fd).2 =
      { specProjection (createFile newId savedPath fd).1 with
        localPath := some savedPath, mongoId := some newId } := by
  exact ⟨rfl, rfl⟩

/-! ## C9 — session teardown (`middleware/auth.js` + `AuthController.getDisconnect`) -/

/-- Response of `GET /disconnect`. -/
inductive DisconnectResult where
  | unauthorized    -- 401 `{error: 'Unauthorized'}` (a body) from the middleware
  | noContent       -- 204 with no body from the handler
deriving DecidableEq, Repr

/-- The `GET /disconnect` endpoint: the route mounts the authenticate
middleware, which replies 401 when the `X-Token` header is absent or when
`auth_<token>` resolves to no session (the middleware's `/files/:id/data`
regex does not match `/disconnect`); only then does `getDisconnect` run,
deleting `auth_<token>` and replying 204 with no body.  Sessions are an
association list with unique keys (`DEL` removes every entry of the key);
a key expired by Redis is simply absent.  Returns the session store after
the call and the response. -/
def disconnectEndpoint (sessions : List (String × String)) (token : Option String) :
    List (String × String) × DisconnectResult :=
  match token with
  | none => (sessions, .unauthorized)
  | some t =>
      match sessions.lookup ("auth_" ++ t) with
      | none => (sessions, .unauthorized)
      | some _ => (sessions.filter (fun kv => kv.1 != "auth_" ++ t), .noContent)

/-- Deleting a key removes it from an association list. -/
theorem lookup_filter_self (l : List (String × String)) (key : String) :
    (l.filter (fun kv => kv.1 != key)).lookup key = none := by
  induction l with
  | nil => rfl
  | cons kv rest ih =>
      by_cases h : kv.1 = key
      · simp [List.filter_cons, h, ih]
      · have hne : (key == kv.1) = false := by simpa using Ne.symm h
        simp [List.filter_cons, h, List.lookup, hne, ih]

/-- Deleting a key leaves every other key's binding unchanged. -/
theorem lookup_filter_other (l : List (String × String)) (key k : String)
    (hk : k ≠ key) :
    (l.filter (fun kv => kv.1 != key)).lookup k = l.lookup k := by
  induction l with
  | nil => rfl
  | cons kv rest ih =>
      by_cases h : kv.1 = key
      · have hk2 : (k == key) = false := by simpa using hk
        simp [List.filter_cons, h, List.lookup, hk2, ih]
      · simp only [List.filter_cons]
        by_cases hkv : k = kv.1
        · simp [h, List.lookup, hkv]
        · simp [h, List.lookup, hkv, ih]

/-- C9 — counterexample: supplying a bearer token with no current binding
(absent, expired or already revoked) does not succeed silently — the auth
middleware rejects it with an authorization failure, which carries a body. -/
theorem c9_counterexample :
    disconnectEndpoint [] (some "t0") = ([], .unauthorized) ∧
    DisconnectResult.unauthorized ≠ .noContent :=
  ⟨rfl, by decide⟩

/-- C9 — amended: teardown succeeds with no body exactly for tokens holding a
current binding, removing that binding and leaving every other token's
binding unchanged; a missing token or a token with no current binding is
rejected with an authorization failure and the session store is unchanged. -/
theorem c9_amended (sessions : List (String × String)) (t k : String) :
    (∀ uid, sessions.lookup ("auth_" ++ t) = some uid →
      (disconnectEndpoint sessions (some t)).2 = .noContent ∧
      (disconnectEndpoint sessions (some t)).1.lookup ("auth_" ++ t) = none ∧
      (k ≠ "auth_" ++ t →
        (disconnectEndpoint sessions (some t)).1.lookup k = sessions.lookup k)) ∧
    (sessions.lookup ("auth_" ++ t) = none →
      disconnectEndpoint sessions (some t) = (sessions, .unauthorized)) ∧
    disconnectEndpoint sessions none = (sessions, .unauthorized) := by
  refine ⟨?_, ?_, rfl⟩
  · intro uid hbind
    simp only [disconnectEndpoint]
    rw [hbind]
    exact ⟨rfl, lookup_filter_self sessions _, fun hk => lookup_filter_other sessions _ k hk⟩
  · intro hnone
    simp only [disconnectEndpoint]
    rw [hnone]

/-- C9 witness: revoking a bound token yields 204 and removes exactly that
binding. -/
theorem c9_amended_witness :
    (disconnectEndpoint [("auth_t0", "u1"), ("auth_t1", "u2")] (some "t0")).2
      = .noContent ∧
    (disconnectEndpoint [("auth_t0", "u1"), ("auth_t1", "u2")] (some "t0")).1.lookup
      "auth_t0" = none ∧
    (disconnectEndpoint [("auth_t0", "u1"), ("auth_t1", "u2")] (some "t0")).1.lookup
      "auth_t1" = some "u2" := by
  have h := (c9_amended [("auth_t0", "u1"), ("auth_t1", "u2")] "t0" "auth_t1").1 "u1"
    (by decide)
  exact ⟨h.1, h.2.1, (h.2.2 (by decide)).trans (by decide)⟩

/-! ## C10 — password hashing (`utils/hashUtils.js`)

`crypto.createHash('sha1').update(password).digest('hex')` is SHA-1
(FIPS 180-4) over the UTF-8 bytes of the password, rendered as 40 lowercase
hex characters. -/

/-- Truncation to a 32-bit word. -/
def w32 (x : Nat) : Nat := x % 4294967296

/-- 32-bit left rotation of a word (callers pass words below `2^32`). -/
def rotl32 (k x : Nat) : Nat := w32 (x * 2 ^ k + x / 2 ^ (32 - k))

/-- The SHA-1 round function `f_t`. -/
def sha1F (t b c d : Nat) : Nat :=
  if t < 20 then (b &&& c) ||| ((b ^^^ 4294967295) &&& d)
  else if t < 40 then b ^^^ c ^^^ d
  else if t < 60 then (b &&& c) ||| (b &&& d) ||| (c &&& d)
  else b ^^^ c ^^^ d

/-- The SHA-1 round constant `K_t`. -/
def sha1K (t : Nat) : Nat :=
  if t < 20 then 1518500249
  else if t < 40 then 1859775393
  else if t < 60 then 2400959708
  else 3395469782

/-- Big-endian 32-bit words of a 64-byte block. -/
def be32Words : List Nat → List Nat
  | b0 :: b1 :: b2 :: b3 :: rest =>
      (b0 * 16777216 + b1 * 65536 + b2 * 256 + b3) :: be32Words rest
  | _ => []

/-- Extend the 16 block words by `n` schedule words
(`W_t = ROTL1(W_{t-3} xor W_{t-8} xor W_{t-14} xor W_{t-16})`). -/
def sha1Extend (w : Array Nat) : Nat → Array Nat
  | 0 => w
  | n + 1 =>
      let v := sha1Extend w n
      v.push (rotl32 1 ((v.getD (v.size - 3) 0 ^^^ v.getD (v.size - 8) 0) ^^^
        (v.getD (v.size - 14) 0 ^^^ v.getD (v.size - 16) 0)))

/-- The SHA-1 compression function over one 64-byte block. -/
def sha1Compress (h : Nat × Nat × Nat × Nat × Nat) (block : List Nat) :
    Nat × Nat × Nat × Nat × Nat :=
  let w := sha1Extend (be32Words block).toArray 64
  let st := (List.range 80).foldl
    (fun (st : Nat × Nat × Nat × Nat × Nat) t =>
      let (a, b, c, d, e) := st
      let temp := w32 (rotl32 5 a + sha1F t b c d + e + sha1K t + w.getD t 0)
      (temp, a, rotl32 30 b, c, d))
    h
  (w32 (h.1 + st.1), w32 (h.2.1 + st.2.1), w32 (h.2.2.1 + st.2.2.1),
   w32 (h.2.2.2.1 + st.2.2.2.1), w32 (h.2.2.2.2 + st.2.2.2.2))

/-- Merkle–Damgård padding: `0x80`, zeros to 56 mod 64, 64-bit big-endian
bit length. -/
def sha1Pad (msg : List Nat) : List Nat :=
  let l := msg.length
  let zeros := (119 - l % 64) % 64
  msg ++ [128] ++ List.replicate zeros 0 ++
    [l * 8 / 72057594037927936 % 256, l * 8 / 281474976710656 % 256,
     l * 8 / 1099511627776 % 256, l * 8 / 4294967296 % 256,
     l * 8 / 16777216 % 256, l * 8 / 65536 % 256, l * 8 / 256 % 256, l * 8 % 256]

/-- Split a byte list into 64-byte blocks. -/
def chunks64 (l : List Nat) : List (List Nat) :=
  if h : l = [] then []
  else l.take 64 :: chunks64 (l.drop 64)
termination_by l.length
decreasing_by
  simp only [List.length_drop]
  have := List.length_pos.mpr h
  omega

/-- The five-word SHA-1 digest of a byte message. -/
def sha1Digest (msg : List Nat) : Nat × Nat × Nat × Nat × Nat :=
  (chunks64 (sha1Pad msg)).foldl sha1Compress
    (1732584193, 4023233417, 2562383102, 271733878, 3285377520)

/-- A lowercase hex digit. -/
def hexChar (n : Nat) : Char := "0123456789abcdef".toList.getD n '0'

/-- Eight hex characters of a 32-bit word, most significant nibble first. -/
def word8Hex (w : Nat) : List Char :=
  [hexChar (w / 268435456 % 16), hexChar (w / 16777216 % 16), hexChar (w / 1048576 % 16),
   hexChar (w / 65536 % 16), hexChar (w / 4096 % 16), hexChar (w / 256 % 16),
   hexChar (w / 16 % 16), hexChar (w % 16)]

/-- The 40-character lowercase hex rendering of a SHA-1 digest. -/
def sha1Hex (msg : List Nat) : String :=
  let d := sha1Digest msg
  ⟨word8Hex d.1 ++ word8Hex d.2.1 ++ word8Hex d.2.2.1 ++
    word8Hex d.2.2.2.1 ++ word8Hex d.2.2.2.2⟩

/-- The UTF-8 bytes of a string (`update(password)` uses utf8). -/
def utf8Bytes (s : String) : List Nat := s.toUTF8.toList.map (fun b => b.toNat)

/-- Embedding of `hashPasswordSha1(password)`. -/
def hashPasswordSha1 (password : String) : String := sha1Hex (utf8Bytes password)

/-- Embedding of `verifyPasswordSha1(password, hashedPassword)`: recompute and compare
with `===`. -/
def verifyPasswordSha1 (password hashedPassword : String) : Bool :=
  hashPasswordSha1 password == hashedPassword

/-- The hex rendering of a digest always has 40 characters. -/
theorem hashPasswordSha1_length (p : String) : (hashPasswordSha1 p).length = 40 := by
  unfold hashPasswordSha1 sha1Hex
  simp [String.length, word8Hex]

/-- C10 — the hasher is deterministic with a fixed 40-hex-character output,
verification of the recomputed digest succeeds, and verification succeeds
exactly on the digest of the password. -/
theorem c10_confirmed (p d : String) :
    hashPasswordSha1 p = hashPasswordSha1 p ∧
    (hashPasswordSha1 p).length = 40 ∧
    verifyPasswordSha1 p (hashPasswordSha1 p) = true ∧
    (verifyPasswordSha1 p d = true ↔ d = hashPasswordSha1 p) := by
  refine ⟨rfl, hashPasswordSha1_length p, ?_, ?_⟩
  · simp [verifyPasswordSha1]
  · constructor
    · intro h
      have hpd : hashPasswordSha1 p = d := by
        rw [verifyPasswordSha1] at h
        exact beq_iff_eq.mp h
      exact hpd.symm
    · intro h
      simp [verifyPasswordSha1, h]
